import Mathlib

/-!
Shallow embedding of the core of the photoelectric-effect lab
(`src/LightSource.py`, `src/Experiment.py`).

Real-valued measurements are modelled as rationals, pandas dataframes as
lists of rows, and the interactive acquisition/file collaborators as
explicit arguments (an `Option` models a load that may fail).
-/

namespace PEF

/-- One row of a light source's dataframe: columns `V_r`, `I_ub`, `I_b`,
`I_φ` (see `Light_Source.__create_source_df`). -/
structure SourceRow where
  V_r : ℚ
  I_ub : ℚ
  I_b : ℚ
  I_φ : ℚ
deriving DecidableEq, Repr

/-- Row order used by `sort_values(by=['V_r'])`: ascending retarding voltage. -/
def byVr (a b : SourceRow) : Prop := a.V_r ≤ b.V_r

instance : DecidableRel byVr := fun a b => inferInstanceAs (Decidable (a.V_r ≤ b.V_r))

instance : IsTotal SourceRow byVr := ⟨fun a b => le_total a.V_r b.V_r⟩

instance : IsTrans SourceRow byVr := ⟨fun _ _ _ h h' => le_trans h h'⟩

/-- State of a `Light_Source` object: wavelength in nm, source type,
optional dataframe, stopping voltage (`Light_Source.__init__` sets the
dataframe to `None` and the stopping voltage to `0`). -/
structure Light_Source where
  wavelength : ℚ
  source_type : String
  source_df : Option (List SourceRow)
  stop_voltage : ℚ
deriving DecidableEq, Repr

/-- `Light_Source.__calc_stop_volage`: scan the dataframe rows in order for
the first row whose photocurrent `I_φ` is `≥ 0` and return its `V_r`.
The Python code initialises `index = -1`; when no row qualifies, indexing
with `-1` silently yields the LAST row's voltage (Python negative
indexing).  On an empty dataframe indexing raises `IndexError`, modelled
here as `none`. -/
def calc_stop_volage (rows : List SourceRow) : Option ℚ :=
  match rows.find? (fun r => decide (0 ≤ r.I_φ)) with
  | some r => some r.V_r
  | none => rows.getLast?.map (fun r => r.V_r)

/-- `Light_Source.__create_source_df`: build rows from the raw triples
`(V_r, I_ub, I_b)`, derive `I_φ = I_ub + I_b`, and sort ascending by
`V_r` (`sort_values`; modelled by a stable insertion sort — the claims
settled here do not depend on the order of rows with equal `V_r`). -/
def create_source_df (source_data : List (ℚ × ℚ × ℚ)) : List SourceRow :=
  List.insertionSort byVr
    (source_data.map (fun d =>
      { V_r := d.1, I_ub := d.2.1, I_b := d.2.2, I_φ := d.2.1 + d.2.2 }))

/-- `Light_Source.load_data_from_csv`: the successfully parsed csv rows are
stored as the dataframe verbatim (no sorting), then the stopping voltage
is recomputed.  `none` models the `IndexError` that
`__calc_stop_volage` raises on an empty dataframe; a csv read failure is
handled by the callers and is modelled there. -/
def Light_Source.load_data_from_csv (ls : Light_Source) (rows : List SourceRow) :
    Option Light_Source :=
  match calc_stop_volage rows with
  | some v => some { ls with source_df := some rows, stop_voltage := v }
  | none => none

/-! ### `Experiment` constants and energy table (`src/Experiment.py`) -/

/-- `Experiment.__SPEED_LIGHT`. -/
def SPEED_LIGHT : ℚ := 299792458

/-- `Experiment.__N_AIR`. -/
def N_AIR : ℚ := 1.000293

/-- `Experiment.__ELECTRON_CHARGE` (a negative value). -/
def ELECTRON_CHARGE : ℚ := -1.602176634e-19

/-- `Experiment.__PLANKS_CONSTANT`. -/
def PLANKS_CONSTANT : ℚ := 6.62607015e-34

/-- One row of the experiment's energy dataframe: columns `λ`, `ν`, `V_s`,
`E` (see `Experiment.__create_energy_df`; `λ` is spelled `lam` and `ν` is
spelled `nu` here). -/
structure EnergyRow where
  lam : ℚ
  nu : ℚ
  V_s : ℚ
  E : ℚ
deriving DecidableEq, Repr

/-- Row order used by `sort_values(by=['λ'])`: ascending wavelength. -/
def byLam (a b : EnergyRow) : Prop := a.lam ≤ b.lam

instance : DecidableRel byLam := fun a b => inferInstanceAs (Decidable (a.lam ≤ b.lam))

instance : IsTotal EnergyRow byLam := ⟨fun a b => le_total a.lam b.lam⟩

instance : IsTrans EnergyRow byLam := ⟨fun _ _ _ h h' => le_trans h h'⟩

/-- The per-entry conversion performed by `Experiment.__create_energy_df`:
`λ = wavelength_nm * 1e-09`, `ν = SPEED_LIGHT / (N_AIR * λ)`,
`V_s = stopping voltage`, `E = abs(ELECTRON_CHARGE) * V_s`. -/
def source_to_energy_row (entry : Light_Source) : EnergyRow :=
  let lam : ℚ := entry.wavelength * 1e-9
  { lam := lam
    nu := SPEED_LIGHT / (N_AIR * lam)
    V_s := entry.stop_voltage
    E := |ELECTRON_CHARGE| * entry.stop_voltage }

/-- `Experiment.__create_energy_df`: one converted row per datalog entry,
sorted ascending by wavelength (`sort_values(by=['λ'])`). -/
def create_energy_df (datalog : List Light_Source) : List EnergyRow :=
  List.insertionSort byLam (datalog.map source_to_energy_row)

/-! ### Linear fit and derived constants (`Experiment.__plot_energy_data`) -/

/-- Model of `sklearn.linear_model.LinearRegression().fit` on one feature
with an intercept, as called in `Experiment.__plot_energy_data`:
ordinary least squares on centred data, returning
`(intercept, slope)` = `(weights[0], weights[1])`.  When the centred
design is identically zero (all abscissae equal, so the least-squares
system is singular) scikit-learn's SVD-based solver returns the
minimum-norm solution: slope `0` and intercept equal to the mean
ordinate; no exception is raised. -/
def linfit (pts : List (ℚ × ℚ)) : ℚ × ℚ :=
  let n : ℚ := pts.length
  let xbar : ℚ := (pts.map (fun p => p.1)).sum / n
  let ybar : ℚ := (pts.map (fun p => p.2)).sum / n
  let sxx : ℚ := (pts.map (fun p => (p.1 - xbar) ^ 2)).sum
  let sxy : ℚ := (pts.map (fun p => (p.1 - xbar) * (p.2 - ybar))).sum
  let slope : ℚ := if sxx = 0 then 0 else sxy / sxx
  (ybar - slope * xbar, slope)

/-- The estimation part of `Experiment.__plot_energy_data`: fit energy `E`
against frequency `ν` over the energy dataframe and return
`(work_func, plank)` where `work_func = weights[0] / ELECTRON_CHARGE` and
`plank = weights[1]` (plotting side effects are dropped). -/
def plot_energy_data (energy_df : List EnergyRow) : ℚ × ℚ :=
  let weights := linfit (energy_df.map (fun r => (r.nu, r.E)))
  (weights.1 / ELECTRON_CHARGE, weights.2)

/-- `Experiment.__get_plank_error`. -/
def get_plank_error (plank : ℚ) : ℚ :=
  |(plank - PLANKS_CONSTANT) / PLANKS_CONSTANT| * 100

/-! ### Datalog operations (`Experiment.__remove_log_entry`,
`__update_log_entry`, `__view_log_entry`)

The interactive index prompt is modelled as an integer argument; the
outcome reported to the user is modelled by `LogReport`. -/

/-- Outcome of a datalog operation:
`ok` — the operation completed;
`invalidEntry` — the `'ERROR: invalid entry'` message (out-of-range index);
`loadFailed` — the replacement data could not be acquired or loaded
(`'ERROR: read_csv: unable to load file'`, or the exception raised while
collecting/recomputing, caught by the surrounding handler);
`emptyLog` — the `'[+]The datalog is currently empty'` message. -/
inductive LogReport where
  | ok
  | invalidEntry
  | loadFailed
  | emptyLog
deriving DecidableEq, Repr

/-- `Experiment.__remove_log_entry`: on a non-empty datalog, a selected
index in `[0, size)` is removed with `pop`; an out-of-range index is
reported and nothing changes; an empty datalog is reported as such. -/
def remove_log_entry (datalog : List Light_Source) (indx : ℤ) :
    List Light_Source × LogReport :=
  if 0 < datalog.length then
    if 0 ≤ indx ∧ indx < (datalog.length : ℤ) then
      (datalog.eraseIdx indx.toNat, .ok)
    else (datalog, .invalidEntry)
  else (datalog, .emptyLog)

/-- `Experiment.__update_log_entry`: on a non-empty datalog and an index in
`[0, size)`, the selected entry is first removed with `pop`, a fresh
`Light_Source` with the same wavelength and type is created, and the
replacement data is acquired (`load_result` models the csv read: `none`
is a read failure).  Only on success is the new entry appended at the
END of the datalog.  When the load fails the function returns with the
old entry already removed and no replacement appended. -/
def update_log_entry (datalog : List Light_Source) (indx : ℤ)
    (load_result : Option (List SourceRow)) : List Light_Source × LogReport :=
  if 0 < datalog.length then
    if h : 0 ≤ indx ∧ indx < (datalog.length : ℤ) then
      let entry := datalog.get ⟨indx.toNat, by omega⟩
      let rest := datalog.eraseIdx indx.toNat
      let new_entry : Light_Source :=
        { wavelength := entry.wavelength, source_type := entry.source_type
          source_df := none, stop_voltage := 0 }
      match load_result with
      | none => (rest, .loadFailed)
      | some rows =>
        match new_entry.load_data_from_csv rows with
        | none => (rest, .loadFailed)
        | some updated => (rest ++ [updated], .ok)
    else (datalog, .invalidEntry)
  else (datalog, .emptyLog)

/-- `Experiment.__view_log_entry`: read-only; returns the viewed entry on a
valid index, otherwise reports the error, never touching the datalog. -/
def view_log_entry (datalog : List Light_Source) (indx : ℤ) :
    Option Light_Source × LogReport :=
  if 0 < datalog.length then
    if h : 0 ≤ indx ∧ indx < (datalog.length : ℤ) then
      (some (datalog.get ⟨indx.toNat, by omega⟩), .ok)
    else (none, .invalidEntry)
  else (none, .emptyLog)

/-! ### Helper lemmas -/

/-- Every row produced by `create_source_df` carries the derived
photocurrent `I_φ = I_ub + I_b`. -/
theorem I_φ_of_mem_create_source_df {data : List (ℚ × ℚ × ℚ)} {r : SourceRow}
    (hr : r ∈ create_source_df data) : r.I_φ = r.I_ub + r.I_b := by
  rw [create_source_df, List.mem_insertionSort] at hr
  obtain ⟨d, -, rfl⟩ := List.mem_map.mp hr
  rfl

/-- On a non-empty dataframe `__calc_stop_volage` always produces a value
(either the first non-negative-photocurrent row or, absent one, the last
row). -/
theorem calc_stop_volage_isSome {rows : List SourceRow} (h : rows ≠ []) :
    (calc_stop_volage rows).isSome := by
  rw [calc_stop_volage]
  cases hf : rows.find? (fun r => decide (0 ≤ r.I_φ)) with
  | some r => simp
  | none => simp [Option.isSome_map, List.getLast?_isSome, h]

/-- Unfolding of `update_log_entry` at a valid index when the replacement
data loads and yields a stopping voltage. -/
theorem update_log_entry_valid (datalog : List Light_Source) (i : ℕ)
    (hi : i < datalog.length) (rows : List SourceRow) (v : ℚ)
    (hcalc : calc_stop_volage rows = some v) :
    update_log_entry datalog (i : ℤ) (some rows) =
      ((datalog.take i ++ datalog.drop (i + 1)) ++
        [{ wavelength := (datalog.get ⟨i, hi⟩).wavelength
           source_type := (datalog.get ⟨i, hi⟩).source_type
           source_df := some rows, stop_voltage := v }], .ok) := by
  have h0 : 0 < datalog.length := Nat.lt_of_le_of_lt (Nat.zero_le _) hi
  have hcond : 0 ≤ (i : ℤ) ∧ (i : ℤ) < (datalog.length : ℤ) :=
    ⟨Int.natCast_nonneg i, by exact_mod_cast hi⟩
  rw [update_log_entry, if_pos h0, dif_pos hcond]
  simp only [Light_Source.load_data_from_csv, hcalc, Int.toNat_natCast,
    List.eraseIdx_eq_take_drop_succ]

/-! ### C1 — stopping voltage when every photocurrent is negative -/

/-- C1: the spec requires `NoCrossingFoundError` when every sample's
photocurrent is negative, and the code indeed intends the sentinel
`index = -1` for that case — but then indexes the voltage array with it,
which in Python silently selects the LAST row.  On the two-sample record
below (photocurrents `-1` and `-2`, both negative) the estimator returns
`0.5`, the last sample's voltage, instead of signalling. -/
theorem C1_all_negative_returns_last_voltage :
    (∀ r ∈ ([⟨0.1, 0, -1, -1⟩, ⟨0.5, 0, -2, -2⟩] : List SourceRow), r.I_φ < 0) ∧
    calc_stop_volage [⟨0.1, 0, -1, -1⟩, ⟨0.5, 0, -2, -2⟩] = some 0.5 := by
  decide!

/-! ### C2 — stopping voltage is the first non-negative crossing -/

/-- C2: for any collected record (`create_source_df` sorts it ascending by
retarding voltage), if some row has photocurrent `I_ub + I_b ≥ 0` then
the estimator returns the retarding voltage of the first such row: the
record splits as `pre ++ r :: post` with every row of `pre` strictly
negative and the result equal to `r.V_r`. -/
theorem C2_stop_voltage_first_nonneg (data : List (ℚ × ℚ × ℚ))
    (h : ∃ r ∈ create_source_df data, 0 ≤ r.I_ub + r.I_b) :
    List.Sorted byVr (create_source_df data) ∧
    ∃ pre r post, create_source_df data = pre ++ r :: post ∧
      calc_stop_volage (create_source_df data) = some r.V_r ∧
      0 ≤ r.I_ub + r.I_b ∧
      ∀ s ∈ pre, s.I_ub + s.I_b < 0 := by
  refine ⟨List.sorted_insertionSort byVr _, ?_⟩
  obtain ⟨r₀, hr₀, hpos⟩ := h
  have hfind : ((create_source_df data).find? (fun r => decide (0 ≤ r.I_φ))).isSome := by
    rw [List.find?_isSome]
    exact ⟨r₀, hr₀, by simpa [I_φ_of_mem_create_source_df hr₀] using hpos⟩
  obtain ⟨r, hr⟩ := Option.isSome_iff_exists.mp hfind
  obtain ⟨hpr, pre, post, hsplit, hpre⟩ := List.find?_eq_some.mp hr
  refine ⟨pre, r, post, hsplit, ?_, ?_, ?_⟩
  · rw [calc_stop_volage, hr]
  · have hmem : r ∈ create_source_df data := by
      rw [hsplit]; exact List.mem_append_right _ (List.mem_cons_self r post)
    have := of_decide_eq_true hpr
    rwa [I_φ_of_mem_create_source_df hmem] at this
  · intro s hs
    have hmem : s ∈ create_source_df data := by
      rw [hsplit]; exact List.mem_append_left _ hs
    have hfalse := hpre s hs
    have : ¬ (0 ≤ s.I_φ) := by
      intro hle
      simp [hle] at hfalse
    rw [I_φ_of_mem_create_source_df hmem] at this
    exact lt_of_not_le this

/-- C2 witness: the spec's three-sample scenario
`(0.0, -2.0, 0.5), (0.3, -0.1, 0.5), (0.6, 1.0, 0.5)` has photocurrents
`-1.5, 0.4, 1.5`; the hypothesis holds, the theorem applies, and the
estimator returns `0.3`. -/
theorem C2_stop_voltage_first_nonneg_witness :
    (∃ r ∈ create_source_df [(0.0, -2.0, 0.5), (0.3, -0.1, 0.5), (0.6, 1.0, 0.5)],
      0 ≤ r.I_ub + r.I_b) ∧
    (List.Sorted byVr (create_source_df [(0.0, -2.0, 0.5), (0.3, -0.1, 0.5), (0.6, 1.0, 0.5)]) ∧
      ∃ pre r post,
        create_source_df [(0.0, -2.0, 0.5), (0.3, -0.1, 0.5), (0.6, 1.0, 0.5)] =
          pre ++ r :: post ∧
        calc_stop_volage (create_source_df [(0.0, -2.0, 0.5), (0.3, -0.1, 0.5), (0.6, 1.0, 0.5)]) =
          some r.V_r ∧
        0 ≤ r.I_ub + r.I_b ∧
        ∀ s ∈ pre, s.I_ub + s.I_b < 0) ∧
    calc_stop_volage (create_source_df [(0.0, -2.0, 0.5), (0.3, -0.1, 0.5), (0.6, 1.0, 0.5)]) =
      some 0.3 :=
  ⟨by decide!, C2_stop_voltage_first_nonneg _ (by decide!), by decide!⟩

/-! ### C6 — sortedness of the record after construction -/

/-- C6 counterexample: `load_data_from_csv` stores the file's rows verbatim
and computes a stopping voltage from them without sorting; a file whose
rows are out of order yields an unsorted record. -/
theorem C6_loaded_record_unsorted :
    (Light_Source.mk 450 "LED" none 0).load_data_from_csv
        [⟨0.5, 1, 1, 2⟩, ⟨0.2, 1, 1, 2⟩] =
      some (Light_Source.mk 450 "LED" (some [⟨0.5, 1, 1, 2⟩, ⟨0.2, 1, 1, 2⟩]) 0.5) ∧
    ¬ List.Sorted byVr [⟨0.5, 1, 1, 2⟩, ⟨0.2, 1, 1, 2⟩] := by
  decide!

/-- C6 amended: a record built by `create_source_df` (the collection path)
is sorted ascending by retarding voltage, but a record loaded from a csv
file keeps the file's row order verbatim, so it is sorted only when the
file already is. -/
theorem C6_sorted_only_on_create (data : List (ℚ × ℚ × ℚ))
    (ls ls' : Light_Source) (rows : List SourceRow)
    (hload : ls.load_data_from_csv rows = some ls') :
    List.Sorted byVr (create_source_df data) ∧ ls'.source_df = some rows := by
  refine ⟨List.sorted_insertionSort byVr _, ?_⟩
  rw [Light_Source.load_data_from_csv] at hload
  cases hcalc : calc_stop_volage rows with
  | none => rw [hcalc] at hload; exact absurd hload (by simp)
  | some v =>
    rw [hcalc] at hload
    obtain rfl : _ = ls' := Option.some_injective _ hload
    rfl

/-- C6 witness: applying the amended theorem to concrete collected data and
a concrete one-row csv load. -/
theorem C6_sorted_only_on_create_witness :
    (Light_Source.mk 450 "LED" none 0).load_data_from_csv [⟨0.2, 1, 1, 2⟩] =
      some (Light_Source.mk 450 "LED" (some [⟨0.2, 1, 1, 2⟩]) 0.2) ∧
    (List.Sorted byVr (create_source_df [(0.6, 1.0, 0.5), (0.0, -2.0, 0.5)]) ∧
      (Light_Source.mk 450 "LED" (some [⟨0.2, 1, 1, 2⟩]) 0.2).source_df =
        some [⟨0.2, 1, 1, 2⟩]) :=
  ⟨by decide!, C6_sorted_only_on_create [(0.6, 1.0, 0.5), (0.0, -2.0, 0.5)]
    (Light_Source.mk 450 "LED" none 0)
    (Light_Source.mk 450 "LED" (some [⟨0.2, 1, 1, 2⟩]) 0.2)
    [⟨0.2, 1, 1, 2⟩] (by decide!)⟩

/-! ### C3 — state of the collection when an update aborts -/

/-- C3 counterexample: an update at the (valid) index `0` of a one-entry
datalog whose replacement data fails to load aborts with the datalog
EMPTIED — the selected entry was popped before the load was attempted
and is never restored, so the aborted action does mutate the
collection. -/
theorem C3_update_load_failure_mutates :
    update_log_entry [⟨450, "LED", none, 0⟩] 0 none = ([], .loadFailed) ∧
    ([] : List Light_Source) ≠ [⟨450, "LED", none, 0⟩] := by
  decide!

/-- C3 amended: an update that aborts because the datalog is empty or the
selected index is out of range leaves the datalog unchanged, but an
update that aborts because the replacement data cannot be acquired or
loaded (read failure, or an empty file) leaves the datalog with the
selected entry removed and nothing appended. -/
theorem C3_update_abort_states (datalog : List Light_Source) (indx : ℤ) :
    (datalog = [] →
      ∀ lr, update_log_entry datalog indx lr = (datalog, .emptyLog)) ∧
    (datalog ≠ [] → ¬ (0 ≤ indx ∧ indx < (datalog.length : ℤ)) →
      ∀ lr, update_log_entry datalog indx lr = (datalog, .invalidEntry)) ∧
    (0 ≤ indx → indx < (datalog.length : ℤ) →
      update_log_entry datalog indx none =
        (datalog.eraseIdx indx.toNat, .loadFailed) ∧
      update_log_entry datalog indx (some []) =
        (datalog.eraseIdx indx.toNat, .loadFailed)) := by
  refine ⟨?_, ?_, ?_⟩
  · rintro rfl lr
    rw [update_log_entry]
    simp
  · intro hne hnot lr
    have h0 : 0 < datalog.length := List.length_pos.mpr hne
    rw [update_log_entry, if_pos h0, dif_neg hnot]
  · intro hle hlt
    have h0 : 0 < datalog.length := by omega
    constructor
    · rw [update_log_entry, if_pos h0, dif_pos ⟨hle, hlt⟩]
    · rw [update_log_entry, if_pos h0, dif_pos ⟨hle, hlt⟩]
      simp [Light_Source.load_data_from_csv, calc_stop_volage]

/-- C3 witness: on a two-entry datalog, the out-of-range index `5` aborts
with the datalog intact, while a load failure at the valid index `0`
aborts with the first entry gone. -/
theorem C3_update_abort_states_witness :
    update_log_entry [⟨450, "LED", none, 0⟩, ⟨650, "Laser", none, 0⟩] 5 none =
      ([⟨450, "LED", none, 0⟩, ⟨650, "Laser", none, 0⟩], .invalidEntry) ∧
    update_log_entry [⟨450, "LED", none, 0⟩, ⟨650, "Laser", none, 0⟩] 0 none =
      ([⟨650, "Laser", none, 0⟩], .loadFailed) :=
  ⟨(C3_update_abort_states [⟨450, "LED", none, 0⟩, ⟨650, "Laser", none, 0⟩] 5).2.1
      (by decide!) (by decide!) none,
   ((C3_update_abort_states [⟨450, "LED", none, 0⟩, ⟨650, "Laser", none, 0⟩] 0).2.2
      (by decide!) (by decide!)).1⟩

/-! ### C4 — completed update: remove, shift left, append at the end -/

/-- C4: a completed `update` at a valid index `i` removes the entry at
position `i` (later entries shift one position left, as `take i ++ drop
(i+1)` shows) and appends the replacement entry at the END of the
datalog, preserving the total size. -/
theorem C4_update_removes_shifts_appends (datalog : List Light_Source) (i : ℕ)
    (rows : List SourceRow) (hi : i < datalog.length) (hrows : rows ≠ []) :
    ∃ updated : Light_Source,
      update_log_entry datalog (i : ℤ) (some rows) =
        ((datalog.take i ++ datalog.drop (i + 1)) ++ [updated], .ok) ∧
      ((datalog.take i ++ datalog.drop (i + 1)) ++ [updated]).length =
        datalog.length := by
  obtain ⟨v, hv⟩ := Option.isSome_iff_exists.mp (calc_stop_volage_isSome hrows)
  refine ⟨_, update_log_entry_valid datalog i hi rows v hv, ?_⟩
  simp only [List.length_append, List.length_take, List.length_drop,
    List.length_cons, List.length_nil]
  omega

/-- C4 witness: updating index `0` of a two-entry datalog with a one-row
load leaves two entries: the former second entry followed by the
appended replacement. -/
theorem C4_update_removes_shifts_appends_witness :
    (([⟨0.2, 1, 1, 2⟩] : List SourceRow) ≠ []) ∧
    ∃ updated : Light_Source,
      update_log_entry [⟨450, "LED", none, 0⟩, ⟨650, "Laser", none, 0⟩]
          ((0 : ℕ) : ℤ) (some [⟨0.2, 1, 1, 2⟩]) =
        ((([⟨450, "LED", none, 0⟩, ⟨650, "Laser", none, 0⟩] :
              List Light_Source).take 0 ++
            ([⟨450, "LED", none, 0⟩, ⟨650, "Laser", none, 0⟩] :
              List Light_Source).drop (0 + 1)) ++
          [updated], .ok) ∧
      ((([⟨450, "LED", none, 0⟩, ⟨650, "Laser", none, 0⟩] :
            List Light_Source).take 0 ++
          ([⟨450, "LED", none, 0⟩, ⟨650, "Laser", none, 0⟩] :
            List Light_Source).drop (0 + 1)) ++
        [updated]).length =
        ([⟨450, "LED", none, 0⟩, ⟨650, "Laser", none, 0⟩] :
          List Light_Source).length :=
  ⟨by decide!,
   C4_update_removes_shifts_appends [⟨450, "LED", none, 0⟩, ⟨650, "Laser", none, 0⟩]
     0 [⟨0.2, 1, 1, 2⟩] (by decide) (by decide!)⟩

/-! ### C5 — out-of-range indices -/

/-- C5 counterexample: on the EMPTY datalog the operations never reach the
index check — they emit the `'datalog is currently empty'` message, not
the invalid-entry (index-out-of-range) error the claim requires for
every collection state. -/
theorem C5_empty_collection_signal :
    remove_log_entry [] 5 = ([], .emptyLog) ∧
    update_log_entry [] 5 none = ([], .emptyLog) ∧
    view_log_entry [] 5 = (none, .emptyLog) ∧
    (remove_log_entry [] 5).2 ≠ .invalidEntry := by
  decide!

/-- C5 amended: on a NON-empty datalog, any index `< 0` or `≥ size` makes
`remove`, `update` and `view` report the invalid-entry
(index-out-of-range) error and leave the datalog unchanged; on the empty
datalog they report emptiness instead, also without mutating. -/
theorem C5_out_of_range_ops (datalog : List Light_Source) (indx : ℤ)
    (hne : datalog ≠ []) (hout : indx < 0 ∨ (datalog.length : ℤ) ≤ indx) :
    remove_log_entry datalog indx = (datalog, .invalidEntry) ∧
    (∀ lr, update_log_entry datalog indx lr = (datalog, .invalidEntry)) ∧
    view_log_entry datalog indx = (none, .invalidEntry) := by
  have h0 : 0 < datalog.length := List.length_pos.mpr hne
  have hnot : ¬ (0 ≤ indx ∧ indx < (datalog.length : ℤ)) := by omega
  refine ⟨?_, fun lr => ?_, ?_⟩
  · rw [remove_log_entry, if_pos h0, if_neg hnot]
  · rw [update_log_entry, if_pos h0, dif_neg hnot]
  · rw [view_log_entry, if_pos h0, dif_neg hnot]

/-- C5 witness: the spec's scenario — a two-entry collection and
`remove(5)` — signals the invalid-entry error and the size remains 2. -/
theorem C5_out_of_range_ops_witness :
    ([⟨450, "LED", none, 0⟩, ⟨650, "Laser", none, 0⟩] ≠ ([] : List Light_Source)) ∧
    ((5 : ℤ) < 0 ∨
      ((([⟨450, "LED", none, 0⟩, ⟨650, "Laser", none, 0⟩] :
        List Light_Source).length : ℤ) ≤ 5)) ∧
    (remove_log_entry [⟨450, "LED", none, 0⟩, ⟨650, "Laser", none, 0⟩] 5 =
        ([⟨450, "LED", none, 0⟩, ⟨650, "Laser", none, 0⟩], .invalidEntry) ∧
      (∀ lr, update_log_entry [⟨450, "LED", none, 0⟩, ⟨650, "Laser", none, 0⟩] 5 lr =
        ([⟨450, "LED", none, 0⟩, ⟨650, "Laser", none, 0⟩], .invalidEntry)) ∧
      view_log_entry [⟨450, "LED", none, 0⟩, ⟨650, "Laser", none, 0⟩] 5 =
        (none, .invalidEntry)) ∧
    (remove_log_entry [⟨450, "LED", none, 0⟩, ⟨650, "Laser", none, 0⟩] 5).1.length = 2 :=
  ⟨by decide!, by decide!,
   C5_out_of_range_ops [⟨450, "LED", none, 0⟩, ⟨650, "Laser", none, 0⟩] 5
     (by decide!) (by decide!),
   by decide!⟩

/-! ### C10 — the replacement entry keeps wavelength and source kind -/

/-- C10: the entry appended by a completed update is built as
`Light_Source(entry.get_wavelength(), entry.get_type())` from the popped
entry, so it has exactly the popped entry's wavelength and source kind;
its dataframe is the freshly loaded one. -/
theorem C10_update_preserves_wavelength_type (datalog : List Light_Source) (i : ℕ)
    (rows : List SourceRow) (hi : i < datalog.length) (hrows : rows ≠ []) :
    ∃ updated : Light_Source,
      update_log_entry datalog (i : ℤ) (some rows) =
        ((datalog.take i ++ datalog.drop (i + 1)) ++ [updated], .ok) ∧
      updated.wavelength = (datalog.get ⟨i, hi⟩).wavelength ∧
      updated.source_type = (datalog.get ⟨i, hi⟩).source_type ∧
      updated.source_df = some rows := by
  obtain ⟨v, hv⟩ := Option.isSome_iff_exists.mp (calc_stop_volage_isSome hrows)
  exact ⟨_, update_log_entry_valid datalog i hi rows v hv, rfl, rfl, rfl⟩

/-- C10 witness: updating index `1` of a two-entry datalog appends an entry
with the popped entry's wavelength `650` and type `"Laser"`. -/
theorem C10_update_preserves_wavelength_type_witness :
    (([⟨0.2, 1, 1, 2⟩] : List SourceRow) ≠ []) ∧
    ∃ updated : Light_Source,
      update_log_entry [⟨450, "LED", none, 0⟩, ⟨650, "Laser", none, 0⟩]
          ((1 : ℕ) : ℤ) (some [⟨0.2, 1, 1, 2⟩]) =
        ((([⟨450, "LED", none, 0⟩, ⟨650, "Laser", none, 0⟩] :
              List Light_Source).take 1 ++
            ([⟨450, "LED", none, 0⟩, ⟨650, "Laser", none, 0⟩] :
              List Light_Source).drop (1 + 1)) ++
          [updated], .ok) ∧
      updated.wavelength =
        (([⟨450, "LED", none, 0⟩, ⟨650, "Laser", none, 0⟩] :
          List Light_Source).get ⟨1, by decide⟩).wavelength ∧
      updated.source_type =
        (([⟨450, "LED", none, 0⟩, ⟨650, "Laser", none, 0⟩] :
          List Light_Source).get ⟨1, by decide⟩).source_type ∧
      updated.source_df = some [⟨0.2, 1, 1, 2⟩] :=
  ⟨by decide!,
   C10_update_preserves_wavelength_type
     [⟨450, "LED", none, 0⟩, ⟨650, "Laser", none, 0⟩] 1 [⟨0.2, 1, 1, 2⟩]
     (by decide) (by decide!)⟩

/-! ### C7 — the energy table -/

/-- C7: the energy dataframe has exactly one row per datalog entry (it is a
permutation of the per-entry conversions, hence of equal length), is
sorted ascending by wavelength, and every row satisfies the conversion
formulas `λ = wavelength_nm * 1e-9`, `ν = SPEED_LIGHT / (N_AIR * λ)`,
`E = |ELECTRON_CHARGE| * stopping_voltage`. -/
theorem C7_energy_table (datalog : List Light_Source) :
    (create_energy_df datalog).length = datalog.length ∧
    List.Sorted byLam (create_energy_df datalog) ∧
    (create_energy_df datalog).Perm (datalog.map source_to_energy_row) ∧
    ∀ row ∈ create_energy_df datalog, ∃ entry ∈ datalog,
      row.lam = entry.wavelength * 1e-9 ∧
      row.nu = SPEED_LIGHT / (N_AIR * row.lam) ∧
      row.V_s = entry.stop_voltage ∧
      row.E = |ELECTRON_CHARGE| * entry.stop_voltage := by
  refine ⟨?_, List.sorted_insertionSort byLam _, List.perm_insertionSort byLam _, ?_⟩
  · rw [create_energy_df, List.length_insertionSort, List.length_map]
  · intro row hrow
    rw [create_energy_df, List.mem_insertionSort] at hrow
    obtain ⟨entry, hentry, rfl⟩ := List.mem_map.mp hrow
    exact ⟨entry, hentry, rfl, rfl, rfl, rfl⟩

/-! ### C8 — degenerate fits -/

/-- C8 counterexample: the fit in `__plot_energy_data` performs no
degeneracy check.  Both on a single row and on two rows sharing one
frequency it silently produces a fit result (slope `0`, intercept the
mean ordinate — the minimum-norm least-squares solution) instead of
signalling an error. -/
theorem C8_degenerate_input_still_fits :
    linfit [(1, 2)] = (2, 0) ∧
    linfit [(3, 1), (3, 5)] = (3, 0) := by
  decide!

/-- C8 amended: for a non-empty input whose frequencies are all equal (in
particular a single row) the estimator does NOT signal an error: the
centred least-squares system is singular and the fit silently returns
slope `0` and intercept equal to the mean of the energies. -/
theorem C8_constant_frequency_fit (pts : List (ℚ × ℚ)) (c : ℚ)
    (hne : pts ≠ []) (hc : ∀ p ∈ pts, p.1 = c) :
    linfit pts = ((pts.map (fun p => p.2)).sum / (pts.length : ℚ), 0) := by
  have hn : (pts.length : ℚ) ≠ 0 :=
    Nat.cast_ne_zero.mpr (Nat.pos_iff_ne_zero.mp (List.length_pos.mpr hne))
  have hxsum : (pts.map (fun p => p.1)).sum = (pts.length : ℚ) * c := by
    rw [List.map_congr_left (fun p (hp : p ∈ pts) => hc p hp)]
    simp [List.map_const', List.sum_replicate, nsmul_eq_mul]
  have hxbar : (pts.map (fun p => p.1)).sum / (pts.length : ℚ) = c := by
    rw [hxsum, mul_div_cancel_left₀ _ hn]
  have hterm : ∀ p ∈ pts,
      (p.1 - (pts.map (fun q => q.1)).sum / (pts.length : ℚ)) ^ 2 = 0 := by
    intro p hp
    rw [hc p hp, hxbar]
    ring
  have hsxx : (pts.map
      (fun p => (p.1 - (pts.map (fun q => q.1)).sum / (pts.length : ℚ)) ^ 2)).sum = 0 := by
    rw [List.map_congr_left hterm]
    simp [List.map_const', List.sum_replicate]
  simp only [linfit]
  rw [if_pos hsxx]
  simp

/-- C8 witness: two rows with the common frequency `3` and energies `1` and
`5` produce the fit `(3, 0)` — intercept the mean energy, slope zero. -/
theorem C8_constant_frequency_fit_witness :
    (([(3, 1), (3, 5)] : List (ℚ × ℚ)) ≠ []) ∧
    (∀ p ∈ ([(3, 1), (3, 5)] : List (ℚ × ℚ)), p.1 = 3) ∧
    linfit [(3, 1), (3, 5)] =
      ((([(3, 1), (3, 5)] : List (ℚ × ℚ)).map (fun p => p.2)).sum /
        ((([(3, 1), (3, 5)] : List (ℚ × ℚ)).length : ℕ) : ℚ), 0) :=
  ⟨by decide!, by decide!, C8_constant_frequency_fit [(3, 1), (3, 5)] 3
    (by decide!) (by decide!)⟩

/-! ### C9 — derived physical quantities -/

/-- C9: the estimation step sets `plank` to the fitted slope
(`weights[1]`) and `work_func` to the fitted intercept (`weights[0]`)
divided by the electron charge, where `ELECTRON_CHARGE` is negative; the
percent error is `|plank − PLANKS_CONSTANT| / PLANKS_CONSTANT × 100`
(the code's `abs((plank − h) / h) * 100` agrees since the reference
value is positive). -/
theorem C9_derived_quantities (energy_df : List EnergyRow) (p : ℚ) :
    plot_energy_data energy_df =
      ((linfit (energy_df.map (fun r => (r.nu, r.E)))).1 / ELECTRON_CHARGE,
        (linfit (energy_df.map (fun r => (r.nu, r.E)))).2) ∧
    ELECTRON_CHARGE < 0 ∧
    get_plank_error p = |p - PLANKS_CONSTANT| / PLANKS_CONSTANT * 100 := by
  refine ⟨rfl, by decide!, ?_⟩
  have hH : (0 : ℚ) < PLANKS_CONSTANT := by decide!
  rw [get_plank_error, abs_div, abs_of_pos hH]

end PEF
